import Mathlib

/-!
Verification of `lenstronomy/SimulationAPI/ObservationConfig/LSST.py`.

Shallow embedding conventions:
* Python dicts with string keys and heterogeneous values become association
  lists `List (String × Value)`; `Value` separates Python ints, floats and
  strings.  All float literals in the module are short decimals that are only
  copied and compared (never subjected to float arithmetic), so they are
  embedded exactly as rationals.
* `LSST.__init__` raising `ValueError` becomes an `Except LSSTError LSST`
  result; the three distinct `ValueError` messages become the three
  constructors of `LSSTError`.
* Python `str.isalpha` / `str.lower` are embedded for the ASCII range
  (`pyIsAlpha`, `pyLower`), which covers every band code the module handles.
* Python `//` on ints is floor division, embedded as `Int.fdiv`.
* `lenstronomy.Util.util.merge_dicts` is not part of the given sources; it is
  modelled from the spec (see `merge_dicts` below).
* To settle the aliasing / deep-copy claims, the same constructor and query
  are additionally embedded against an explicit heap of dicts
  (`Heap`, `LSST.initH`, `kwargs_single_bandH`), where `copy.deepcopy`,
  in-place dict mutation and fresh-dict allocation are explicit.
-/

/-- A Python value stored in one of the module's dicts: an int, a float
(embedded exactly as a rational; the module only copies and compares its float
literals) or a string. -/
inductive Value where
  | int (n : ℤ)
  | num (q : ℚ)
  | str (s : String)
  deriving DecidableEq

/-- Python `d[k]` as a total lookup: first entry with key `k`, if any. -/
def dictGet : List (String × Value) → String → Option Value
  | [], _ => none
  | (k, v) :: rest, key => if key = k then some v else dictGet rest key

/-- Python `d[k] = v`: replace the value at an existing key in place,
otherwise append the new entry (Python dicts preserve insertion order). -/
def dictSet : List (String × Value) → String → Value → List (String × Value)
  | [], key, v => [(key, v)]
  | (k, w) :: rest, key, v =>
    if key = k then (key, v) :: rest else (k, w) :: dictSet rest key v

/-- Python `d1.update(d2)`: fold the entries of `d2` into `d1`. -/
def dictUpdate (d1 d2 : List (String × Value)) : List (String × Value) :=
  d2.foldl (fun acc kv => dictSet acc kv.1 kv.2) d1

/-- Modelled from the spec: `lenstronomy.Util.util.merge_dicts` is not among
the given sources.  Per the spec the query "returns a new mapping containing
the union of the Camera Record's keys and the instance's observation-state
keys", "observation values must take precedence, matching the merge order
camera-then-observation".  So: start from an empty dict, update with the
camera dict, then update with the observation dict. -/
def merge_dicts (d1 d2 : List (String × Value)) : List (String × Value) :=
  dictUpdate (dictUpdate [] d1) d2

/-- `u_band_obs` module-level template (LSST.py lines 13-18). -/
def u_band_obs : List (String × Value) :=
  [("exposure_time", .num (Rat.divInt 15 1)),
   ("sky_brightness", .num (Rat.divInt 2299 100)),
   ("magnitude_zero_point", .num (Rat.divInt 265 10)),
   ("num_exposures", .int 140),
   ("seeing", .num (Rat.divInt 81 100)),
   ("psf_type", .str "GAUSSIAN")]

/-- `g_band_obs` module-level template (LSST.py lines 20-25). -/
def g_band_obs : List (String × Value) :=
  [("exposure_time", .num (Rat.divInt 15 1)),
   ("sky_brightness", .num (Rat.divInt 2226 100)),
   ("magnitude_zero_point", .num (Rat.divInt 2830 100)),
   ("num_exposures", .int 200),
   ("seeing", .num (Rat.divInt 77 100)),
   ("psf_type", .str "GAUSSIAN")]

/-- `r_band_obs` module-level template (LSST.py lines 27-32). -/
def r_band_obs : List (String × Value) :=
  [("exposure_time", .num (Rat.divInt 15 1)),
   ("sky_brightness", .num (Rat.divInt 212 10)),
   ("magnitude_zero_point", .num (Rat.divInt 2813 100)),
   ("num_exposures", .int 460),
   ("seeing", .num (Rat.divInt 73 100)),
   ("psf_type", .str "GAUSSIAN")]

/-- `i_band_obs` module-level template (LSST.py lines 34-39). -/
def i_band_obs : List (String × Value) :=
  [("exposure_time", .num (Rat.divInt 15 1)),
   ("sky_brightness", .num (Rat.divInt 2048 100)),
   ("magnitude_zero_point", .num (Rat.divInt 2779 100)),
   ("num_exposures", .int 460),
   ("seeing", .num (Rat.divInt 71 100)),
   ("psf_type", .str "GAUSSIAN")]

/-- `z_band_obs` module-level template (LSST.py lines 41-46). -/
def z_band_obs : List (String × Value) :=
  [("exposure_time", .num (Rat.divInt 15 1)),
   ("sky_brightness", .num (Rat.divInt 196 10)),
   ("magnitude_zero_point", .num (Rat.divInt 2740 100)),
   ("num_exposures", .int 400),
   ("seeing", .num (Rat.divInt 69 100)),
   ("psf_type", .str "GAUSSIAN")]

/-- `y_band_obs` module-level template (LSST.py lines 48-53). -/
def y_band_obs : List (String × Value) :=
  [("exposure_time", .num (Rat.divInt 15 1)),
   ("sky_brightness", .num (Rat.divInt 1861 100)),
   ("magnitude_zero_point", .num (Rat.divInt 2658 100)),
   ("num_exposures", .int 400),
   ("seeing", .num (Rat.divInt 68 100)),
   ("psf_type", .str "GAUSSIAN")]

/-- The camera dict assigned to `self.camera` (LSST.py lines 100-103):
`read_noise` is a Python int literal, the other two are floats. -/
def cameraDict : List (String × Value) :=
  [("read_noise", .int 10),
   ("pixel_scale", .num (Rat.divInt 2 10)),
   ("ccd_gain", .num (Rat.divInt 23 10))]

/-- Python `str.isalpha` for an ASCII character: `A`-`Z` or `a`-`z`. -/
def pyIsAlphaChar (c : Char) : Bool :=
  (decide ('A' ≤ c) && decide (c ≤ 'Z')) || (decide ('a' ≤ c) && decide (c ≤ 'z'))

/-- Python `str.isalpha`: non-empty and every character alphabetic
(ASCII range; covers every band code the constructor distinguishes). -/
def pyIsAlpha (s : String) : Bool :=
  !s.data.isEmpty && s.data.all pyIsAlphaChar

/-- Python `str.lower` on one ASCII character: shift `A`-`Z` down by 32. -/
def pyLowerChar (c : Char) : Char :=
  if 'A' ≤ c ∧ c ≤ 'Z' then Char.ofNat (c.toNat + 32) else c

/-- Python `str.lower` (ASCII range). -/
def pyLower (s : String) : String :=
  String.mk (s.data.map pyLowerChar)

/-- LSST.py lines 75-76: `if band.isalpha(): band = band.lower()`. -/
def normalizeBand (band : String) : String :=
  if pyIsAlpha band then pyLower band else band

/-- The `if band == 'g' ... elif ... else raise` ladder of `LSST.__init__`
(LSST.py lines 77-90), selecting the template to deep-copy;
`none` is the `raise ValueError("band ... not supported!")` branch. -/
def bandObs? (band : String) : Option (List (String × Value)) :=
  if band = "g" then some g_band_obs
  else if band = "r" then some r_band_obs
  else if band = "i" then some i_band_obs
  else if band = "u" then some u_band_obs
  else if band = "z" then some z_band_obs
  else if band = "y" then some y_band_obs
  else none

/-- The three `ValueError`s `LSST.__init__` can raise, in source order:
unsupported band, unsupported psf_type, unsupported coadd_years. -/
inductive LSSTError where
  | invalidBand
  | unsupportedPSF
  | invalidCoaddYears
  deriving DecidableEq

/-- LSST.py line 98: `self.obs['num_exposures'] = coadd_years *
self.obs['num_exposures'] // 10` (Python `//` is floor division). -/
def rescaleNumExposures (obs : List (String × Value)) (coadd_years : ℤ) :
    List (String × Value) :=
  match dictGet obs "num_exposures" with
  | some (Value.int n) => dictSet obs "num_exposures" (Value.int ((coadd_years * n).fdiv 10))
  | _ => obs

deriving instance DecidableEq for Except

/-- The instance state populated by `LSST.__init__`: `self.obs` (a deep copy
of the selected band template, possibly rescaled) and `self.camera`. -/
structure LSST where
  obs : List (String × Value)
  camera : List (String × Value)
  deriving DecidableEq

/-- `LSST.__init__(band, psf_type, coadd_years)` (LSST.py lines 68-103).
Validation order is the source order: band ladder first, then the psf_type
check, then the coadd_years check; on success `self.obs` is the (deep-copied)
template, rescaled when `coadd_years != 10`, and `self.camera` is the fixed
camera dict.  Source defaults are `band='g'`, `psf_type='GAUSSIAN'`,
`coadd_years=10` (see `LSST.initDefault`). -/
def LSST.init (band psf_type : String) (coadd_years : ℤ) : Except LSSTError LSST :=
  match bandObs? (normalizeBand band) with
  | none => .error .invalidBand
  | some obs =>
    if psf_type ≠ "GAUSSIAN" then .error .unsupportedPSF
    else if coadd_years > 10 ∨ coadd_years < 1 then .error .invalidCoaddYears
    else
      .ok { obs := if coadd_years ≠ 10 then rescaleNumExposures obs coadd_years else obs,
            camera := cameraDict }

/-- `LSST(band)` with the source's default arguments
`psf_type='GAUSSIAN'`, `coadd_years=10`. -/
def LSST.initDefault (band : String) : Except LSSTError LSST :=
  LSST.init band "GAUSSIAN" 10

/-- `LSST.kwargs_single_band` (LSST.py lines 108-114):
`util.merge_dicts(self.camera, self.obs)`. -/
def LSST.kwargs_single_band (self : LSST) : List (String × Value) :=
  merge_dicts self.camera self.obs

/-- The six supported band codes, lowercase. -/
def lowerBands : List String := ["u", "g", "r", "i", "z", "y"]

/-- The six supported band codes together with their uppercase forms. -/
def supportedBandInputs : List String :=
  ["u", "g", "r", "i", "z", "y", "U", "G", "R", "I", "Z", "Y"]

/-- The baseline (10-year) `num_exposures` of the band template selected by a
band code, read from the template itself (0 for an unsupported code). -/
def baselineNumExposures (band : String) : ℤ :=
  match bandObs? (normalizeBand band) with
  | some t =>
    match dictGet t "num_exposures" with
    | some (Value.int n) => n
    | _ => 0
  | none => 0

/-! ### Heap-level embedding

The spec's deep-copy / aliasing claims are about Python object identity, so
the constructor and the query are embedded a second time against an explicit
heap of dict objects: an address is an index into the list of allocated
dicts, `copy.deepcopy` and dict-literal evaluation allocate fresh cells, and
the `self.obs['num_exposures'] = ...` assignment is an in-place write. -/

/-- A heap of Python dict objects; the address of a dict is its index. -/
structure Heap where
  cells : List (List (String × Value))
  deriving DecidableEq

/-- Dereference an address. -/
def Heap.read (h : Heap) (a : ℕ) : Option (List (String × Value)) :=
  h.cells[a]?

/-- Allocate a fresh dict object, returning its address and the new heap. -/
def Heap.alloc (h : Heap) (d : List (String × Value)) : ℕ × Heap :=
  (h.cells.length, ⟨h.cells ++ [d]⟩)

/-- Overwrite the dict stored at an address (in-place mutation). -/
def Heap.write (h : Heap) (a : ℕ) (d : List (String × Value)) : Heap :=
  ⟨h.cells.set a d⟩

/-- The heap after the module body runs: the six band templates are the
module-level dict objects, at addresses `0`..`5` in source order. -/
def moduleHeap : Heap :=
  ⟨[u_band_obs, g_band_obs, r_band_obs, i_band_obs, z_band_obs, y_band_obs]⟩

/-- The band ladder of `LSST.__init__` at the heap level: the address of the
module-level template dict the constructor deep-copies, following the
source's branch order (`g`,`r`,`i`,`u`,`z`,`y` at `moduleHeap` addresses
`1`,`2`,`3`,`0`,`4`,`5`). -/
def bandAddr? (band : String) : Option ℕ :=
  if band = "g" then some 1
  else if band = "r" then some 2
  else if band = "i" then some 3
  else if band = "u" then some 0
  else if band = "z" then some 4
  else if band = "y" then some 5
  else none

/-- An `LSST` instance at the heap level: `self.obs` and `self.camera` hold
addresses of dict objects. -/
structure LSSTRef where
  obs : ℕ
  camera : ℕ
  deriving DecidableEq

/-- `LSST.__init__` at the heap level.  `copy.deepcopy(<band>_band_obs)`
allocates a fresh cell holding the template's current contents; the
`coadd_years != 10` rescale writes the instance's own cell in place; the
camera dict literal allocates another fresh cell.  An error discards the
constructor's garbage allocations (the caller never sees the object). -/
def LSST.initH (h : Heap) (band psf_type : String) (coadd_years : ℤ) :
    Except LSSTError (LSSTRef × Heap) :=
  match bandAddr? (normalizeBand band) with
  | none => .error .invalidBand
  | some ta =>
    let tmpl := (h.read ta).getD []
    let a1 := h.alloc tmpl
    if psf_type ≠ "GAUSSIAN" then .error .unsupportedPSF
    else if coadd_years > 10 ∨ coadd_years < 1 then .error .invalidCoaddYears
    else
      let h2 := if coadd_years ≠ 10
        then a1.2.write a1.1 (rescaleNumExposures tmpl coadd_years)
        else a1.2
      let a2 := h2.alloc cameraDict
      .ok (⟨a1.1, a2.1⟩, a2.2)

/-- `LSST.kwargs_single_band` at the heap level: read the two dicts the
instance owns, build the merged dict in a fresh cell, return its address. -/
def kwargs_single_bandH (h : Heap) (inst : LSSTRef) : ℕ × Heap :=
  h.alloc (merge_dicts ((h.read inst.camera).getD []) ((h.read inst.obs).getD []))

/-- Run a sequence of construction requests `(band, psf_type, coadd_years)`
against a heap, keeping the heap of each successful construction. -/
def runConstructions (h : Heap) : List (String × String × ℤ) → Heap
  | [] => h
  | (b, p, c) :: rest =>
    match LSST.initH h b p c with
    | .ok r => runConstructions r.2 rest
    | .error _ => runConstructions h rest

example : LSST.init "Z" "GAUSSIAN" 1 =
    .ok { obs := dictSet z_band_obs "num_exposures" (Value.int 40), camera := cameraDict } := by
  decide

example : baselineNumExposures "Z" = 400 := by decide

example : LSST.initDefault "u" =
    .ok { obs := u_band_obs, camera := cameraDict } := by decide

example : LSST.init "x" "GAUSSIAN" 10 = .error .invalidBand := by decide

example : (LSST.kwargs_single_band { obs := u_band_obs, camera := cameraDict }).map Prod.fst =
    ["read_noise", "pixel_scale", "ccd_gain", "exposure_time", "sky_brightness",
     "magnitude_zero_point", "num_exposures", "seeing", "psf_type"] := by decide

/-! ### Helper lemmas -/

/-- Once the band ladder has selected a template, the remaining construction
steps are the psf check, the coadd check, and the rescale. -/
theorem init_eq_of_bandObs {b : String} {t : List (String × Value)}
    (ht : bandObs? (normalizeBand b) = some t) (p : String) (c : ℤ) :
    LSST.init b p c =
      if p ≠ "GAUSSIAN" then .error .unsupportedPSF
      else if c > 10 ∨ c < 1 then .error .invalidCoaddYears
      else .ok { obs := if c ≠ 10 then rescaleNumExposures t c else t,
                 camera := cameraDict } := by
  unfold LSST.init
  rw [ht]

/-- When the band ladder selects no template the constructor raises at once. -/
theorem init_eq_of_bandObs_none {b : String}
    (ht : bandObs? (normalizeBand b) = none) (p : String) (c : ℤ) :
    LSST.init b p c = .error .invalidBand := by
  unfold LSST.init
  rw [ht]

/-- Every supported band input (lowercase or uppercase) selects a template. -/
theorem mem_bands_bandObs :
    ∀ b ∈ supportedBandInputs, ∃ t, bandObs? (normalizeBand b) = some t := by
  intro b hb
  simp only [supportedBandInputs] at hb
  fin_cases hb <;> exact ⟨_, rfl⟩

/-- Characters are determined by their numeric value. -/
theorem char_eq_of_toNat_eq {a b : Char} (h : a.toNat = b.toNat) : a = b :=
  Char.ext (UInt32.ext h)

/-- Valid shifted codepoints: for an uppercase-ASCII numeric value `n`,
`Char.ofNat (n + 32)` has numeric value `n + 32`. -/
theorem toNat_ofNat_shift (n : ℕ) (h1 : 65 ≤ n) (h2 : n ≤ 90) :
    (Char.ofNat (n + 32)).toNat = n + 32 := by
  interval_cases n <;> decide

/-- `pyLowerChar` maps `c` to `l` only when `c` is `l` itself or the
uppercase-ASCII character 32 codepoints below `l`. -/
theorem pyLowerChar_eq (c l : Char) (h : pyLowerChar c = l) :
    c = l ∨ ('A' ≤ c ∧ c ≤ 'Z' ∧ c.toNat + 32 = l.toNat) := by
  unfold pyLowerChar at h
  by_cases hr : 'A' ≤ c ∧ c ≤ 'Z'
  · right
    rw [if_pos hr] at h
    refine ⟨hr.1, hr.2, ?_⟩
    have h65 : 65 ≤ c.toNat := hr.1
    have h90 : c.toNat ≤ 90 := hr.2
    have := congrArg Char.toNat h
    rwa [toNat_ofNat_shift c.toNat h65 h90] at this
  · left
    rwa [if_neg hr] at h

/-- `pyLower` produces a one-character string only from a one-character
string whose character lowers to it. -/
theorem pyLower_eq_single (s : String) (l : Char)
    (h : pyLower s = String.mk [l]) :
    ∃ c, s.data = [c] ∧ pyLowerChar c = l := by
  unfold pyLower at h
  have hd : s.data.map pyLowerChar = [l] := congrArg String.data h
  cases hs : s.data with
  | nil => rw [hs] at hd; simp at hd
  | cons c rest =>
    rw [hs] at hd
    simp only [List.map_cons, List.cons.injEq, List.map_eq_nil_iff] at hd
    exact ⟨c, by rw [hd.2], hd.1⟩

/-- If lowering `b` gives the one-character string of `l`, then `b` is that
string or the corresponding one-character uppercase string. -/
theorem eq_or_upper_of_pyLower (b : String) (l u : Char)
    (hu : u.toNat + 32 = l.toNat) (h : pyLower b = String.mk [l]) :
    b = String.mk [l] ∨ b = String.mk [u] := by
  obtain ⟨c, hdata, hc⟩ := pyLower_eq_single b l h
  have hb : b = String.mk [c] := by rw [← hdata]
  rcases pyLowerChar_eq c l hc with h1 | ⟨_, _, h2⟩
  · left; rw [hb, h1]
  · right
    rw [hb]
    have : c = u := char_eq_of_toNat_eq (by omega)
    rw [this]

/-- A band input the ladder accepts (after `isalpha`/`lower` normalization)
is one of the six codes or one of their uppercase forms. -/
theorem mem_supported_of_bandObs (b : String)
    (h : (bandObs? (normalizeBand b)).isSome) : b ∈ supportedBandInputs := by
  have hmem : normalizeBand b ∈ lowerBands := by
    revert h
    unfold bandObs? lowerBands
    split_ifs with h1 h2 h3 h4 h5 h6 <;> simp_all
  unfold normalizeBand at hmem
  by_cases ha : pyIsAlpha b
  · rw [if_pos ha] at hmem
    simp only [lowerBands, List.mem_cons, List.not_mem_nil, or_false] at hmem
    rcases hmem with h | h | h | h | h | h
    · rcases eq_or_upper_of_pyLower b 'u' 'U' (by decide) h with h' | h' <;> subst h' <;> decide
    · rcases eq_or_upper_of_pyLower b 'g' 'G' (by decide) h with h' | h' <;> subst h' <;> decide
    · rcases eq_or_upper_of_pyLower b 'r' 'R' (by decide) h with h' | h' <;> subst h' <;> decide
    · rcases eq_or_upper_of_pyLower b 'i' 'I' (by decide) h with h' | h' <;> subst h' <;> decide
    · rcases eq_or_upper_of_pyLower b 'z' 'Z' (by decide) h with h' | h' <;> subst h' <;> decide
    · rcases eq_or_upper_of_pyLower b 'y' 'Y' (by decide) h with h' | h' <;> subst h' <;> decide
  · rw [if_neg ha] at hmem
    fin_cases hmem <;> decide

/-! ### Claims -/

/-- C1: For every supported band and every coadd_years in [1,10], the
num_exposures stored in the constructed instance equals
floor(baseline_num_exposures × coadd_years / 10), where
baseline_num_exposures is the band template's value. -/
theorem claim_C1 :
    ∀ b ∈ supportedBandInputs, ∀ c : ℤ, 1 ≤ c → c ≤ 10 →
      ∃ inst, LSST.init b "GAUSSIAN" c = .ok inst ∧
        dictGet inst.obs "num_exposures" =
          some (.int ⌊((baselineNumExposures b * c : ℤ) : ℚ) / 10⌋) := by
  intro b hb c h1 h2
  have hfl : ⌊((baselineNumExposures b * c : ℤ) : ℚ) / 10⌋
      = (baselineNumExposures b * c).fdiv 10 := by
    rw [Int.fdiv_eq_ediv _ (by norm_num)]
    rw [show (10:ℚ) = ((10:ℕ):ℚ) by norm_num]
    rw [Rat.floor_intCast_div_natCast]
    norm_num
  rw [hfl]
  simp only [supportedBandInputs] at hb
  fin_cases hb <;> interval_cases c <;> exact ⟨_, rfl, by decide⟩

/-- C1 witness: band "Z" with coadd_years 1 yields num_exposures
floor(400·1/10) = 40. -/
theorem claim_C1_witness :
    LSST.init "Z" "GAUSSIAN" 1 =
      .ok { obs := dictSet z_band_obs "num_exposures" (.int 40), camera := cameraDict } ∧
    dictGet (dictSet z_band_obs "num_exposures" (.int 40)) "num_exposures" =
      some (.int ⌊((baselineNumExposures "Z" * 1 : ℤ) : ℚ) / 10⌋) ∧
    ⌊((baselineNumExposures "Z" * 1 : ℤ) : ℚ) / 10⌋ = 40 := by
  obtain ⟨inst, h1, h2⟩ := claim_C1 "Z" (by decide) 1 (by decide) (by decide)
  have h0 : LSST.init "Z" "GAUSSIAN" 1 =
      .ok { obs := dictSet z_band_obs "num_exposures" (.int 40), camera := cameraDict } := by
    decide
  rw [h0] at h1
  injection h1 with h1'
  subst h1'
  refine ⟨h0, h2, ?_⟩
  have h3 := h2
  rw [show dictGet
      (LSST.obs { obs := dictSet z_band_obs "num_exposures" (.int 40), camera := cameraDict })
      "num_exposures" = some (Value.int 40) from rfl] at h3
  injection h3 with h4
  injection h4 with h5
  exact h5.symm

/-- C2: Every band string in {u,g,r,i,z,y} and its uppercase form constructs
successfully and selects the template named by the lowercased band; every
other band string fails with the InvalidBand error. -/
theorem claim_C2 :
    (∀ b ∈ supportedBandInputs,
      ∃ inst, LSST.init b "GAUSSIAN" 10 = .ok inst ∧
        bandObs? (pyLower b) = some inst.obs) ∧
    (∀ b : String, b ∉ supportedBandInputs → ∀ p : String, ∀ c : ℤ,
      LSST.init b p c = .error .invalidBand) := by
  constructor
  · intro b hb
    simp only [supportedBandInputs] at hb
    fin_cases hb <;> exact ⟨_, rfl, rfl⟩
  · intro b hb p c
    cases ho : bandObs? (normalizeBand b) with
    | none => exact init_eq_of_bandObs_none ho p c
    | some t => exact absurd (mem_supported_of_bandObs b (by rw [ho]; rfl)) hb

/-- C2 witness: band "Z" succeeds selecting the z template; band "x" fails
with the InvalidBand error. -/
theorem claim_C2_witness :
    (LSST.init "Z" "GAUSSIAN" 10 = .ok { obs := z_band_obs, camera := cameraDict } ∧
      bandObs? (pyLower "Z") = some z_band_obs) ∧
    LSST.init "x" "GAUSSIAN" 10 = .error .invalidBand := by
  obtain ⟨inst, h1, h2⟩ := claim_C2.1 "Z" (by decide)
  have h0 : LSST.init "Z" "GAUSSIAN" 10 = .ok { obs := z_band_obs, camera := cameraDict } := by
    decide
  rw [h0] at h1
  injection h1 with h1'
  subst h1'
  exact ⟨⟨h0, h2⟩, claim_C2.2 "x" (by decide) "GAUSSIAN" 10⟩

/-- C3: For every psf_type string not exactly "GAUSSIAN" (case-sensitively),
construction with a supported band fails with the UnsupportedPSF error,
whatever coadd_years is. -/
theorem claim_C3 :
    ∀ b ∈ supportedBandInputs, ∀ p : String, p ≠ "GAUSSIAN" → ∀ c : ℤ,
      LSST.init b p c = .error .unsupportedPSF := by
  intro b hb p hp c
  obtain ⟨t, ht⟩ := mem_bands_bandObs b hb
  rw [init_eq_of_bandObs ht, if_pos hp]

/-- C3 witness: the lowercase variant "gaussian" is rejected. -/
theorem claim_C3_witness :
    LSST.init "g" "gaussian" 10 = .error .unsupportedPSF :=
  claim_C3 "g" (by decide) "gaussian" (by decide) 10

/-- C4: For every integer coadd_years outside [1,10], construction with a
supported band and valid psf_type fails with the InvalidCoaddYears error
(and, the result being an error, no object at all is produced). -/
theorem claim_C4 :
    ∀ b ∈ supportedBandInputs, ∀ c : ℤ, (c < 1 ∨ 10 < c) →
      LSST.init b "GAUSSIAN" c = .error .invalidCoaddYears ∧
      ∀ inst, LSST.init b "GAUSSIAN" c ≠ .ok inst := by
  intro b hb c hc
  obtain ⟨t, ht⟩ := mem_bands_bandObs b hb
  have herr : LSST.init b "GAUSSIAN" c = .error .invalidCoaddYears := by
    rw [init_eq_of_bandObs ht, if_neg (by simp), if_pos (by omega)]
  exact ⟨herr, fun inst h => by rw [herr] at h; exact Except.noConfusion h⟩

/-- C4 witness: coadd_years 0 and 11 are both rejected for band "g". -/
theorem claim_C4_witness :
    LSST.init "g" "GAUSSIAN" 0 = .error .invalidCoaddYears ∧
    LSST.init "g" "GAUSSIAN" 11 = .error .invalidCoaddYears :=
  ⟨(claim_C4 "g" (by decide) 0 (by omega)).1,
   (claim_C4 "g" (by decide) 11 (by omega)).1⟩

/-- C5: Every successful construction yields a query result whose key list is
the camera keys followed by the observation keys (so its key set is exactly
the stated nine), and every observation entry appears in the merged mapping
with its own value (observation precedence under the camera-then-observation
merge order). -/
theorem claim_C5 :
    ∀ b ∈ supportedBandInputs, ∀ c : ℤ, 1 ≤ c → c ≤ 10 →
      ∃ inst, LSST.init b "GAUSSIAN" c = .ok inst ∧
        (LSST.kwargs_single_band inst).map Prod.fst =
          ["read_noise", "pixel_scale", "ccd_gain", "exposure_time",
           "sky_brightness", "magnitude_zero_point", "num_exposures",
           "seeing", "psf_type"] ∧
        ∀ kv ∈ inst.obs, dictGet (LSST.kwargs_single_band inst) kv.1 = some kv.2 := by
  intro b hb c h1 h2
  simp only [supportedBandInputs] at hb
  fin_cases hb <;> interval_cases c <;> exact ⟨_, rfl, by decide, by decide⟩

/-- C5 witness: the default construction for band "i", queried, has exactly
the nine keys and its observation entry num_exposures = 460 wins through. -/
theorem claim_C5_witness :
    LSST.init "i" "GAUSSIAN" 10 = .ok { obs := i_band_obs, camera := cameraDict } ∧
    (LSST.kwargs_single_band { obs := i_band_obs, camera := cameraDict }).map Prod.fst =
      ["read_noise", "pixel_scale", "ccd_gain", "exposure_time",
       "sky_brightness", "magnitude_zero_point", "num_exposures",
       "seeing", "psf_type"] ∧
    dictGet (LSST.kwargs_single_band { obs := i_band_obs, camera := cameraDict })
      "num_exposures" = some (.int 460) := by
  obtain ⟨inst, h1, h2, h3⟩ := claim_C5 "i" (by decide) 10 (by decide) (by decide)
  have h0 : LSST.init "i" "GAUSSIAN" 10 = .ok { obs := i_band_obs, camera := cameraDict } := by
    decide
  rw [h0] at h1
  injection h1 with h1'
  subst h1'
  exact ⟨h0, h2, h3 ("num_exposures", .int 460) (by decide)⟩

/-- C6: Constructing with band "u" and the source's default psf_type and
coadd_years, then querying, yields num_exposures 140, exposure_time 15.0,
psf_type "GAUSSIAN", read_noise 10 and pixel_scale 0.2. -/
theorem claim_C6 :
    LSST.initDefault "u" = .ok { obs := u_band_obs, camera := cameraDict } ∧
    dictGet (LSST.kwargs_single_band { obs := u_band_obs, camera := cameraDict })
      "num_exposures" = some (.int 140) ∧
    dictGet (LSST.kwargs_single_band { obs := u_band_obs, camera := cameraDict })
      "exposure_time" = some (.num (Rat.divInt 15 1)) ∧
    dictGet (LSST.kwargs_single_band { obs := u_band_obs, camera := cameraDict })
      "psf_type" = some (.str "GAUSSIAN") ∧
    dictGet (LSST.kwargs_single_band { obs := u_band_obs, camera := cameraDict })
      "read_noise" = some (.int 10) ∧
    dictGet (LSST.kwargs_single_band { obs := u_band_obs, camera := cameraDict })
      "pixel_scale" = some (.num (Rat.divInt 2 10)) := by
  refine ⟨by decide, by decide, by decide, by decide, by decide, by decide⟩

/-- Every template the band ladder can select is one of the six module
templates. -/
theorem bandObs?_cases {x : String} {t : List (String × Value)}
    (h : bandObs? x = some t) :
    t = g_band_obs ∨ t = r_band_obs ∨ t = i_band_obs ∨
    t = u_band_obs ∨ t = z_band_obs ∨ t = y_band_obs := by
  unfold bandObs? at h
  split_ifs at h <;> simp_all

/-- C9: Every successful construction stores the fixed camera record
read_noise = 10, pixel_scale = 0.2, ccd_gain = 2.3, and those three values
appear unchanged in the queried mapping. -/
theorem claim_C9 :
    ∀ (b p : String) (c : ℤ) (inst : LSST), LSST.init b p c = .ok inst →
      inst.camera = cameraDict ∧
      dictGet (LSST.kwargs_single_band inst) "read_noise" = some (.int 10) ∧
      dictGet (LSST.kwargs_single_band inst) "pixel_scale" = some (.num (Rat.divInt 2 10)) ∧
      dictGet (LSST.kwargs_single_band inst) "ccd_gain" = some (.num (Rat.divInt 23 10)) := by
  intro b p c inst h
  cases ho : bandObs? (normalizeBand b) with
  | none =>
    rw [init_eq_of_bandObs_none ho] at h
    exact absurd h (by simp)
  | some t =>
    rw [init_eq_of_bandObs ho] at h
    by_cases hp : p ≠ "GAUSSIAN"
    · rw [if_pos hp] at h; exact absurd h (by simp)
    · rw [if_neg hp] at h
      by_cases hc : c > 10 ∨ c < 1
      · rw [if_pos hc] at h; exact absurd h (by simp)
      · rw [if_neg hc] at h
        injection h with h'
        subst h'
        rcases bandObs?_cases ho with rfl | rfl | rfl | rfl | rfl | rfl <;>
          by_cases hc10 : c ≠ 10 <;>
          first
          | (rw [if_pos hc10]; exact ⟨rfl, rfl, rfl, rfl⟩)
          | (rw [if_neg hc10]; exact ⟨rfl, rfl, rfl, rfl⟩)

/-- C9 witness: band "r" with coadd_years 3 stores the fixed camera record
and the queried mapping carries its three values unchanged. -/
theorem claim_C9_witness :
    ({ obs := rescaleNumExposures r_band_obs 3, camera := cameraDict } : LSST).camera
      = cameraDict ∧
    dictGet (LSST.kwargs_single_band
        { obs := rescaleNumExposures r_band_obs 3, camera := cameraDict })
      "read_noise" = some (.int 10) ∧
    dictGet (LSST.kwargs_single_band
        { obs := rescaleNumExposures r_band_obs 3, camera := cameraDict })
      "pixel_scale" = some (.num (Rat.divInt 2 10)) ∧
    dictGet (LSST.kwargs_single_band
        { obs := rescaleNumExposures r_band_obs 3, camera := cameraDict })
      "ccd_gain" = some (.num (Rat.divInt 23 10)) :=
  claim_C9 "r" "GAUSSIAN" 3 _ (by decide)

/-- C10: Validation order is band, then psf_type, then coadd_years: an
invalid band wins over everything, and an invalid psf_type wins over an
invalid coadd_years whenever the band is valid. -/
theorem claim_C10 :
    (∀ (b p : String) (c : ℤ), bandObs? (normalizeBand b) = none →
      LSST.init b p c = .error .invalidBand) ∧
    (∀ (b p : String) (c : ℤ), (bandObs? (normalizeBand b)).isSome →
      p ≠ "GAUSSIAN" → LSST.init b p c = .error .unsupportedPSF) ∧
    (∀ (b : String) (c : ℤ), (bandObs? (normalizeBand b)).isSome →
      (c < 1 ∨ 10 < c) → LSST.init b "GAUSSIAN" c = .error .invalidCoaddYears) := by
  refine ⟨fun b p c ht => init_eq_of_bandObs_none ht p c, ?_, ?_⟩
  · intro b p c hs hp
    obtain ⟨t, ht⟩ := Option.isSome_iff_exists.mp hs
    rw [init_eq_of_bandObs ht, if_pos hp]
  · intro b c hs hc
    obtain ⟨t, ht⟩ := Option.isSome_iff_exists.mp hs
    rw [init_eq_of_bandObs ht, if_neg (by simp), if_pos (by omega)]

/-- C10 witness: with every argument invalid the band error wins; with a
valid band and both other arguments invalid the psf error wins; with only
coadd_years invalid its error is raised. -/
theorem claim_C10_witness :
    LSST.init "x" "bad" 99 = .error .invalidBand ∧
    LSST.init "g" "bad" 99 = .error .unsupportedPSF ∧
    LSST.init "g" "GAUSSIAN" 99 = .error .invalidCoaddYears :=
  ⟨claim_C10.1 "x" "bad" 99 (by decide),
   claim_C10.2.1 "g" "bad" 99 (by decide) (by decide),
   claim_C10.2.2 "g" 99 (by decide) (by omega)⟩

/-- A successful heap-level construction only appends (and writes within)
fresh cells: every pre-existing cell reads back unchanged, the instance's two
addresses are fresh and distinct, and the heap only grows. -/
theorem initH_frame (h : Heap) (b p : String) (c : ℤ) (inst : LSSTRef) (h' : Heap)
    (heq : LSST.initH h b p c = .ok (inst, h')) :
    (∀ a, a < h.cells.length → h'.read a = h.read a) ∧
    h.cells.length ≤ inst.obs ∧ h.cells.length ≤ inst.camera ∧
    inst.obs ≠ inst.camera ∧ h.cells.length ≤ h'.cells.length := by
  unfold LSST.initH at heq
  cases hba : bandAddr? (normalizeBand b) with
  | none => rw [hba] at heq; exact absurd heq (by simp)
  | some ta =>
    rw [hba] at heq
    simp only [Heap.alloc] at heq
    by_cases hp : p ≠ "GAUSSIAN"
    · rw [if_pos hp] at heq; exact absurd heq (by simp)
    · rw [if_neg hp] at heq
      by_cases hc : c > 10 ∨ c < 1
      · rw [if_pos hc] at heq; exact absurd heq (by simp)
      · rw [if_neg hc] at heq
        by_cases hc10 : c ≠ 10 <;>
          [rw [if_pos hc10] at heq; rw [if_neg hc10] at heq] <;>
        · injection heq with heq'
          rw [Prod.mk.injEq] at heq'
          obtain ⟨hinst, hheap⟩ := heq'
          subst hinst
          subst hheap
          simp only [Heap.write, Heap.read]
          refine ⟨?_, ?_, ?_, ?_, ?_⟩
          · intro a ha
            rw [List.getElem?_append_left (by simp [List.length_set]; omega)]
            first
            | rw [List.getElem?_set_ne (by omega),
                List.getElem?_append_left (by omega)]
            | rw [List.getElem?_append_left (by omega)]
          · simp
          · simp [List.length_set]
          · simp [List.length_set]
          · simp [List.length_set]

/-- Any sequence of constructions leaves every cell of the starting heap
reading back unchanged (failed constructions leave the heap as it was). -/
theorem runConstructions_frame (reqs : List (String × String × ℤ)) :
    ∀ (h : Heap) (a : ℕ), a < h.cells.length →
      (runConstructions h reqs).read a = h.read a := by
  induction reqs with
  | nil => intro h a ha; rfl
  | cons r rest ih =>
    intro h a ha
    obtain ⟨b, p, c⟩ := r
    show (match LSST.initH h b p c with
      | .ok res => runConstructions res.2 rest
      | .error _ => runConstructions h rest).read a = h.read a
    cases hinit : LSST.initH h b p c with
    | error e => exact ih h a ha
    | ok res =>
      obtain ⟨hframe, _, _, _, hlen⟩ :=
        initH_frame h b p c res.1 res.2 (by rw [hinit])
      rw [ih res.2 a (lt_of_lt_of_le ha hlen), hframe a ha]

/-- Reading below the end of a grown heap sees the original cell. -/
theorem read_mk_append_lt {l : List (List (String × Value))}
    {d : List (String × Value)} {a : ℕ} (ha : a < l.length) :
    (Heap.mk (l ++ [d])).read a = l[a]? :=
  List.getElem?_append_left ha

/-- Reading the freshly appended cell of a grown heap sees the new dict. -/
theorem read_mk_append_self (l : List (List (String × Value)))
    (d : List (String × Value)) :
    (Heap.mk (l ++ [d])).read l.length = some d :=
  List.getElem?_concat_length l d

/-- One query step, written out: a fresh address at the end of the heap and
the merged dict stored there. -/
theorem kwargsH_eq (h : Heap) (inst : LSSTRef) :
    kwargs_single_bandH h inst =
      (h.cells.length,
       Heap.mk (h.cells ++
         [merge_dicts ((h.read inst.camera).getD []) ((h.read inst.obs).getD [])])) :=
  rfl

/-- C7: Calling the query twice returns structurally equal dicts stored at
fresh, distinct addresses that alias neither the instance's obs nor camera
cell; neither call changes any pre-existing cell, and writing through the
first result's address afterwards changes neither the second result nor the
instance's cells. -/
theorem claim_C7 :
    ∀ (h : Heap) (inst : LSSTRef) (a1 a2 : ℕ) (h1 h2 : Heap),
      inst.obs < h.cells.length → inst.camera < h.cells.length →
      kwargs_single_bandH h inst = (a1, h1) →
      kwargs_single_bandH h1 inst = (a2, h2) →
      h1.read a1 = h2.read a2 ∧
      a1 ≠ a2 ∧ a1 ≠ inst.obs ∧ a1 ≠ inst.camera ∧
      a2 ≠ inst.obs ∧ a2 ≠ inst.camera ∧
      (∀ a, a < h.cells.length → h1.read a = h.read a) ∧
      (∀ a, a < h.cells.length → h2.read a = h.read a) ∧
      (∀ d : List (String × Value),
        (h2.write a1 d).read a2 = h2.read a2 ∧
        (h2.write a1 d).read inst.obs = h2.read inst.obs ∧
        (h2.write a1 d).read inst.camera = h2.read inst.camera) := by
  intro h inst a1 a2 h1 h2 hobs hcam heq1 heq2
  rw [kwargsH_eq, Prod.mk.injEq] at heq1
  obtain ⟨ha1, hh1⟩ := heq1
  subst ha1
  subst hh1
  rw [kwargsH_eq, Prod.mk.injEq] at heq2
  obtain ⟨ha2, hh2⟩ := heq2
  subst ha2
  subst hh2
  have hco : (Heap.mk (h.cells ++
      [merge_dicts ((h.read inst.camera).getD []) ((h.read inst.obs).getD [])])).read
        inst.camera = h.read inst.camera := read_mk_append_lt hcam
  have hoo : (Heap.mk (h.cells ++
      [merge_dicts ((h.read inst.camera).getD []) ((h.read inst.obs).getD [])])).read
        inst.obs = h.read inst.obs := read_mk_append_lt hobs
  rw [hco, hoo]
  dsimp only
  set D : List (String × Value) :=
    merge_dicts ((h.read inst.camera).getD []) ((h.read inst.obs).getD []) with hD
  have hL : (h.cells ++ [D]).length = h.cells.length + 1 := by simp
  refine ⟨?_, ?_, ?_, ?_, ?_, ?_, ?_, ?_, ?_⟩
  · rw [show (Heap.mk ((h.cells ++ [D]) ++ [D])).read (h.cells ++ [D]).length =
        some D from read_mk_append_self (h.cells ++ [D]) D,
      show (Heap.mk (h.cells ++ [D])).read h.cells.length = some D from
        read_mk_append_self h.cells D]
  · omega
  · omega
  · omega
  · omega
  · omega
  · intro a ha
    exact read_mk_append_lt ha
  · intro a ha
    have : a < (h.cells ++ [D]).length := by omega
    rw [show (Heap.mk ((h.cells ++ [D]) ++ [D])).read a = (h.cells ++ [D])[a]? from
        read_mk_append_lt this]
    exact List.getElem?_append_left ha
  · intro d
    simp only [Heap.write, Heap.read]
    refine ⟨?_, ?_, ?_⟩ <;> exact List.getElem?_set_ne (by omega)

/-- C7 witness: on a concrete heap holding a u-band instance, two query
calls store structurally equal merged dicts at the distinct fresh addresses
2 and 3, aliasing neither the obs cell 0 nor the camera cell 1. -/
theorem claim_C7_witness :
    (Heap.mk [u_band_obs, cameraDict, merge_dicts cameraDict u_band_obs]).read 2 =
      (Heap.mk [u_band_obs, cameraDict, merge_dicts cameraDict u_band_obs,
                merge_dicts cameraDict u_band_obs]).read 3 ∧
    (2 : ℕ) ≠ 3 ∧ (2 : ℕ) ≠ 0 ∧ (2 : ℕ) ≠ 1 := by
  have hmain := claim_C7 ⟨[u_band_obs, cameraDict]⟩ ⟨0, 1⟩ 2 3
      ⟨[u_band_obs, cameraDict, merge_dicts cameraDict u_band_obs]⟩
      ⟨[u_band_obs, cameraDict, merge_dicts cameraDict u_band_obs,
        merge_dicts cameraDict u_band_obs]⟩
      (by decide) (by decide) (by decide) (by decide)
  exact ⟨hmain.1, hmain.2.1, hmain.2.2.1, hmain.2.2.2.1⟩

/-- C8: A successful heap-level construction deep-copies the template into
fresh cells the instance alone owns: every pre-existing cell (the module
templates, any other instance's state) is unchanged, the instance's obs and
camera addresses are fresh and distinct, and writing through the instance's
obs address afterwards still leaves every pre-existing cell unchanged; in
particular any sequence of constructions leaves the module templates
unchanged. -/
theorem claim_C8 :
    (∀ (h : Heap) (b p : String) (c : ℤ) (inst : LSSTRef) (h' : Heap),
      LSST.initH h b p c = .ok (inst, h') →
      (∀ a, a < h.cells.length → h'.read a = h.read a) ∧
      h.cells.length ≤ inst.obs ∧ h.cells.length ≤ inst.camera ∧
      inst.obs ≠ inst.camera ∧
      (∀ (d : List (String × Value)) (a : ℕ), a < h.cells.length →
        (h'.write inst.obs d).read a = h.read a)) ∧
    (∀ reqs : List (String × String × ℤ), ∀ a, a < moduleHeap.cells.length →
      (runConstructions moduleHeap reqs).read a = moduleHeap.read a) := by
  constructor
  · intro h b p c inst h' heq
    obtain ⟨hframe, hobs, hcam, hne, _⟩ := initH_frame h b p c inst h' heq
    refine ⟨hframe, hobs, hcam, hne, ?_⟩
    intro d a ha
    have hw : (h'.write inst.obs d).read a = h'.read a := by
      simp only [Heap.write, Heap.read]
      rw [List.getElem?_set_ne (by omega)]
    rw [hw, hframe a ha]
  · intro reqs a ha
    exact runConstructions_frame reqs moduleHeap a ha

/-- C8 witness: constructing band "g" on the module heap leaves template
cell 0 unchanged and gets fresh distinct addresses 6 and 7; a concrete
construction sequence leaves template cell 0 unchanged. -/
theorem claim_C8_witness :
    ((Heap.mk (moduleHeap.cells ++ [g_band_obs] ++ [cameraDict])).read 0 =
      moduleHeap.read 0) ∧
    (6 : ℕ) ≤ (⟨6, 7⟩ : LSSTRef).obs ∧
    ((Heap.mk (moduleHeap.cells ++ [g_band_obs] ++ [cameraDict])).write
        (⟨6, 7⟩ : LSSTRef).obs []).read 0 = moduleHeap.read 0 ∧
    (runConstructions moduleHeap [("Z", "GAUSSIAN", 1)]).read 0 = moduleHeap.read 0 := by
  have hmain := claim_C8.1 moduleHeap "g" "GAUSSIAN" 10 ⟨6, 7⟩
    ⟨moduleHeap.cells ++ [g_band_obs] ++ [cameraDict]⟩ (by decide)
  exact ⟨hmain.1 0 (by decide), hmain.2.1,
    hmain.2.2.2.2 [] 0 (by decide), claim_C8.2 [("Z", "GAUSSIAN", 1)] 0 (by decide)⟩
